import Mathlib

/-!
Verification of the `acpi` crate (michaelmelanson/acpi), a firmware table
discovery and validation engine.  The public surface in `src/lib.rs` is:

  * `AcpiError` — the tagged error type;
  * `PhysicalMapping<T>` — a scoped handle over mapped physical memory;
  * `AcpiHandler` — the host capability trait with `map_physical_region`
    and `unmap_physical_region`;
  * `parse_acpi(handler, rsdp_address)` — the entry point, which maps the
    RSDP, validates it, and (on success only) unmaps it.

The `rsdp` and `sdt` modules are declared in `lib.rs` but their source files
are not in the repository snapshot, so `Rsdp` and `Rsdp::validate` are
modelled from the spec (see the doc comments below).  `parse_acpi` itself is
embedded directly from `src/lib.rs` lines 62–73, instrumented with an event
trace recording every handler call and every dereference of a mapping.
-/

namespace Acpi

/-- The error enum from `src/lib.rs` lines 13–19.  The source declares
exactly these three variants. -/
inductive AcpiError where
  | RsdpIncorrectSignature
  | RsdpInvalidOemId
  | RsdpInvalidChecksum
  deriving DecidableEq, Fintype

/-- Modelled from the spec: the RSDP structure (spec §3 **RootPointer**),
whose Rust definition lives in the missing `src/rsdp.rs`.  Fields follow the
fixed 36-byte layout: 8-byte signature, 1-byte checksum, 6-byte OEM id,
revision byte, 4-byte RSDT address, and the revision-≥2 extension (4-byte
length, 8-byte XSDT address, extended checksum, 3 reserved bytes).  Bytes
are `Nat` values; multi-byte fields are `Nat` with their little-endian byte
decomposition made explicit where checksums are computed. -/
structure Rsdp where
  signature : List Nat
  checksum : Nat
  oem_id : List Nat
  revision : Nat
  rsdt_address : Nat
  length : Nat
  xsdt_address : Nat
  ext_checksum : Nat
  reserved : List Nat
  deriving DecidableEq

/-- The little-endian byte decomposition of a 32-bit value. -/
def u32LeBytes (n : Nat) : List Nat :=
  [n % 256, n / 256 % 256, n / 65536 % 256, n / 16777216 % 256]

/-- The little-endian byte decomposition of a 64-bit value. -/
def u64LeBytes (n : Nat) : List Nat :=
  u32LeBytes (n % 4294967296) ++ u32LeBytes (n / 4294967296)

/-- Byte sum of a list. -/
def sumBytes (l : List Nat) : Nat := l.foldl (· + ·) 0

/-- The first 20 bytes of the RSDP in wire order (spec §3): signature,
checksum, OEM id, revision, RSDT address. -/
def Rsdp.firstTwentyBytes (r : Rsdp) : List Nat :=
  r.signature ++ [r.checksum] ++ r.oem_id ++ [r.revision] ++ u32LeBytes r.rsdt_address

/-- All 36 bytes of the extended (revision ≥ 2) RSDP in wire order. -/
def Rsdp.allBytes (r : Rsdp) : List Nat :=
  r.firstTwentyBytes ++ u32LeBytes r.length ++ u64LeBytes r.xsdt_address
    ++ [r.ext_checksum] ++ r.reserved

/-- The ASCII bytes of the literal `"RSD PTR "`. -/
def rsdSignatureBytes : List Nat := [82, 83, 68, 32, 80, 84, 82, 32]

/-- Modelled from the spec: the OEM-id sanity check of `Rsdp::validate`
(missing `src/rsdp.rs`).  Spec §9 directs: "treat validation as accepting
any 6-byte value unless an explicit constraint … is required"; so the check
accepts every OEM id. -/
def oemIdAcceptable (_oem : List Nat) : Bool := true

/-- Modelled from the spec: `Rsdp::validate` from the missing `src/rsdp.rs`,
following spec §4.1 — check the signature equals `"RSD PTR "` (else
`RsdpIncorrectSignature`), check the OEM id sanity policy (else
`RsdpInvalidOemId`), then check the checksum(s) per the revision rule of
spec §3: revision 0 validates the sum of the first 20 bytes mod 256 = 0;
revision ≥ 2 additionally validates the extended checksum over all 36 bytes
(else `RsdpInvalidChecksum`). -/
def Rsdp.validate (r : Rsdp) : Except AcpiError Unit :=
  if r.signature ≠ rsdSignatureBytes then
    Except.error AcpiError.RsdpIncorrectSignature
  else if ¬ oemIdAcceptable r.oem_id then
    Except.error AcpiError.RsdpInvalidOemId
  else if r.revision = 0 then
    if sumBytes r.firstTwentyBytes % 256 = 0 then
      Except.ok ()
    else
      Except.error AcpiError.RsdpInvalidChecksum
  else
    if sumBytes r.firstTwentyBytes % 256 = 0 ∧ sumBytes r.allBytes % 256 = 0 then
      Except.ok ()
    else
      Except.error AcpiError.RsdpInvalidChecksum

/-- The `PhysicalMapping<T>` struct from `src/lib.rs` lines 24–29.  The
raw pointer `virtual_start : NonNull<T>` is embedded as the `T` value it
points to (`content`), which is what `Deref` (lines 31–42) exposes. -/
structure PhysicalMapping (T : Type) where
  physical_start : Nat
  content : T
  mapped_length : Nat
  deriving DecidableEq

/-- The host capability (the `AcpiHandler` trait, `src/lib.rs` lines
48–58), embedded as the function underlying `map_physical_region::<Rsdp>`:
what mapping the handler returns for each requested physical address.
`parse_acpi` only ever instantiates `map_physical_region` at `T = Rsdp`,
so this is the whole behaviour the core can observe.
`unmap_physical_region` returns `()` and is recorded in the event trace. -/
structure HandlerModel where
  mapRsdp : Nat → PhysicalMapping Rsdp

/-- One observable step of a `parse_acpi` run: a handler call
(`map_physical_region` with its argument and returned mapping, or
`unmap_physical_region` with the consumed mapping), or a dereference of a
mapping's contents (the `Deref` impl of `PhysicalMapping`). -/
inductive Event where
  | mapPhysicalRegion (physicalAddress : Nat) (returned : PhysicalMapping Rsdp)
  | readMapping (m : PhysicalMapping Rsdp)
  | unmapPhysicalRegion (m : PhysicalMapping Rsdp)
  deriving DecidableEq

/-- `parse_acpi` from `src/lib.rs` lines 62–73, instrumented with an event
trace.  The source is:
```
let rsdp_mapping = handler.map_physical_region::<Rsdp>(rsdp_address);
(*rsdp_mapping).validate()?;
// TODO: map the RSDT
// TODO: parse the RSDT
handler.unmap_physical_region(rsdp_mapping);
Ok(())
```
The `?` on the validate call propagates any error immediately, skipping the
unmap; on success the mapping is unmapped and `Ok(())` returned.  The two
TODO comments mark that no RSDT mapping or walk happens. -/
def parse_acpi (handler : HandlerModel) (rsdp_address : Nat) :
    Except AcpiError Unit × List Event :=
  match (handler.mapRsdp rsdp_address).content.validate with
  | Except.error e =>
      (Except.error e,
       [Event.mapPhysicalRegion rsdp_address (handler.mapRsdp rsdp_address),
        Event.readMapping (handler.mapRsdp rsdp_address)])
  | Except.ok _ =>
      (Except.ok (),
       [Event.mapPhysicalRegion rsdp_address (handler.mapRsdp rsdp_address),
        Event.readMapping (handler.mapRsdp rsdp_address),
        Event.unmapPhysicalRegion (handler.mapRsdp rsdp_address)])

/-- Is the event a `map_physical_region` call? -/
def Event.isMap : Event → Bool
  | Event.mapPhysicalRegion _ _ => true
  | _ => false

/-- Is the event an `unmap_physical_region` call? -/
def Event.isUnmap : Event → Bool
  | Event.unmapPhysicalRegion _ => true
  | _ => false

/-- Is the event a handler call (as opposed to a mapping dereference)? -/
def Event.isHandlerCall (e : Event) : Bool := e.isMap || e.isUnmap

/-- Number of `map_physical_region` calls in a trace. -/
def countMaps (tr : List Event) : Nat := (tr.filter Event.isMap).length

/-- Number of `unmap_physical_region` calls in a trace. -/
def countUnmaps (tr : List Event) : Nat := (tr.filter Event.isUnmap).length

/-- The subtrace of handler calls (maps and unmaps, dereferences dropped). -/
def handlerCalls (tr : List Event) : List Event := tr.filter Event.isHandlerCall

/-- Equality of `Except` results is decidable when both components are. -/
instance {e a : Type} [DecidableEq e] [DecidableEq a] : DecidableEq (Except e a) :=
  fun x y =>
    match x, y with
    | Except.error e1, Except.error e2 => decidable_of_iff (e1 = e2) (by simp)
    | Except.ok a1, Except.ok a2 => decidable_of_iff (a1 = a2) (by simp)
    | Except.error _, Except.ok _ => isFalse (by simp)
    | Except.ok _, Except.error _ => isFalse (by simp)

/-! Concrete fixtures: the constructed RSDPs of the spec's end-to-end
scenarios (spec §8), used as concrete inputs for the claims. -/

/-- The constructed revision-0 RSDP: signature `"RSD PTR "`, revision 0,
RSDT address `0x1000`, checksum computed correctly over the first 20 bytes
(byte sum 543 + 209 + 16 = 768 = 3·256), zeros elsewhere. -/
def goodRsdp : Rsdp :=
  { signature := rsdSignatureBytes
    checksum := 209
    oem_id := [0, 0, 0, 0, 0, 0]
    revision := 0
    rsdt_address := 4096
    length := 0
    xsdt_address := 0
    ext_checksum := 0
    reserved := [0, 0, 0] }

/-- The same constructed RSDP with signature byte 0 changed from `'R'` (82)
to `'X'` (88). -/
def badRsdp : Rsdp :=
  { goodRsdp with signature := [88, 83, 68, 32, 80, 84, 82, 32] }

/-- The mapping a test handler returns for the good RSDP at physical
address 0, `mapped_length` being the 36-byte size of `Rsdp`. -/
def goodMapping : PhysicalMapping Rsdp :=
  { physical_start := 0, content := goodRsdp, mapped_length := 36 }

/-- The mapping a test handler returns for the corrupted RSDP. -/
def badMapping : PhysicalMapping Rsdp :=
  { physical_start := 0, content := badRsdp, mapped_length := 36 }

/-- A handler serving the good RSDP at every address. -/
def goodHandler : HandlerModel := { mapRsdp := fun _ => goodMapping }

/-- A handler serving the corrupted RSDP at every address. -/
def badHandler : HandlerModel := { mapRsdp := fun _ => badMapping }

/-- A handler that agrees with `goodHandler` at address 0 but differs
elsewhere. -/
def altHandler : HandlerModel :=
  { mapRsdp := fun a => if a = 0 then goodMapping else badMapping }

/-- Does the event read (dereference) the given mapping? -/
def Event.reads (m : PhysicalMapping Rsdp) : Event → Bool
  | Event.readMapping m2 => m2 = m
  | _ => false

/-- No mapping is dereferenced after it has been passed to
`unmap_physical_region`: after every unmap event, the rest of the trace
contains no read of that mapping. -/
def noReadAfterUnmap : List Event → Bool
  | [] => true
  | Event.unmapPhysicalRegion m :: rest =>
      rest.all (fun e => ¬ Event.reads m e) && noReadAfterUnmap rest
  | _ :: rest => noReadAfterUnmap rest

/-! Theorems settling the claims. -/

/-- Claim C1 (code bug): the claim says every `parse_acpi` call makes as
many unmap calls as map calls.  The code violates this on the error path:
with a handler serving an RSDP whose signature is corrupted, `parse_acpi`
makes one `map_physical_region` call and zero `unmap_physical_region`
calls while returning an error — the `?` early return skips the unmap. -/
theorem C1_map_unmap_unbalanced_on_error :
    countMaps (parse_acpi badHandler 0).2 = 1 ∧
    countUnmaps (parse_acpi badHandler 0).2 = 0 ∧
    (parse_acpi badHandler 0).1 = Except.error AcpiError.RsdpIncorrectSignature := by
  decide

/-- Claim C2 (confirmed): if RSDP validation returns an error `e`, then
`parse_acpi` returns `Err(e)` immediately; its whole trace is the single
`map_physical_region` call at the RSDP address followed by the dereference
for validation — no further map, no dispatch, and in particular no
`unmap_physical_region` on the RSDP mapping. -/
theorem C2_error_surfaces_immediately (h : HandlerModel) (addr : Nat)
    (e : AcpiError) (hv : (h.mapRsdp addr).content.validate = Except.error e) :
    parse_acpi h addr =
      (Except.error e,
       [Event.mapPhysicalRegion addr (h.mapRsdp addr),
        Event.readMapping (h.mapRsdp addr)]) := by
  unfold parse_acpi
  rw [hv]

/-- Witness for C2 at the corrupted-signature RSDP. -/
theorem C2_witness :
    badMapping.content.validate = Except.error AcpiError.RsdpIncorrectSignature ∧
    parse_acpi badHandler 0 =
      (Except.error AcpiError.RsdpIncorrectSignature,
       [Event.mapPhysicalRegion 0 badMapping, Event.readMapping badMapping]) :=
  ⟨by decide, C2_error_surfaces_immediately badHandler 0
      AcpiError.RsdpIncorrectSignature (by decide)⟩

/-- Claim C3 (confirmed): if RSDP validation succeeds then `parse_acpi`
returns `Ok(())` and, before returning, passes the mapping returned by
`map_physical_region` to `unmap_physical_region` exactly once — the trace
is exactly map, dereference, unmap of that same mapping. -/
theorem C3_success_returns_ok_and_unmaps_once (h : HandlerModel) (addr : Nat)
    (hv : (h.mapRsdp addr).content.validate = Except.ok ()) :
    parse_acpi h addr =
      (Except.ok (),
       [Event.mapPhysicalRegion addr (h.mapRsdp addr),
        Event.readMapping (h.mapRsdp addr),
        Event.unmapPhysicalRegion (h.mapRsdp addr)]) := by
  unfold parse_acpi
  rw [hv]

/-- Witness for C3 at the well-formed constructed RSDP. -/
theorem C3_witness :
    goodMapping.content.validate = Except.ok () ∧
    parse_acpi goodHandler 0 =
      (Except.ok (),
       [Event.mapPhysicalRegion 0 goodMapping,
        Event.readMapping goodMapping,
        Event.unmapPhysicalRegion goodMapping]) :=
  ⟨by decide, C3_success_returns_ok_and_unmaps_once goodHandler 0 (by decide)⟩

/-- Claim C4 (code bug): the claim says `parse_acpi` performs the full
locate/validate/walk/dispatch sequence.  The code stops after RSDP
validation (the walk is two TODO comments): for a validating RSDP whose
RSDT address is 4096, the complete trace contains only the one map of the
RSDP itself — the root table at 4096 is never mapped, validated, or
dispatched — yet `Ok(())` is returned. -/
theorem C4_no_root_table_walk :
    goodRsdp.rsdt_address = 4096 ∧
    parse_acpi goodHandler 0 =
      (Except.ok (),
       [Event.mapPhysicalRegion 0 goodMapping,
        Event.readMapping goodMapping,
        Event.unmapPhysicalRegion goodMapping]) := by
  decide

/-- Claim C5 counterexample: `AcpiError` does not have seven variants. -/
theorem C5_counterexample : ¬ Fintype.card AcpiError = 7 := by
  decide

/-- Claim C5 (corrected): `AcpiError` is a tagged union with exactly the
three variants `RsdpIncorrectSignature`, `RsdpInvalidOemId`,
`RsdpInvalidChecksum`; every value of the type — hence every failure of
`parse_acpi` — is one of these three tags. -/
theorem C5_exactly_three_variants :
    Fintype.card AcpiError = 3 ∧
    ∀ e : AcpiError,
      e = AcpiError.RsdpIncorrectSignature ∨
      e = AcpiError.RsdpInvalidOemId ∨
      e = AcpiError.RsdpInvalidChecksum := by
  decide

/-- Claim C6 (confirmed): for the constructed input with RSDP signature
`"RSD PTR "`, revision 0, a correctly computed checksum over the first 20
bytes and zeros elsewhere, `parse_acpi` returns `Ok(())`. -/
theorem C6_end_to_end_ok :
    (parse_acpi goodHandler 0).1 = Except.ok () := by
  decide

/-- Claim C7 (code bug): with signature byte 0 changed from `'R'` to `'X'`,
`parse_acpi` does return `Err(RsdpIncorrectSignature)` and opens exactly
one mapping, but — contrary to the claim — that mapping is never released:
the trace ends without any `unmap_physical_region` call. -/
theorem C7_error_path_leaks_mapping :
    parse_acpi badHandler 0 =
      (Except.error AcpiError.RsdpIncorrectSignature,
       [Event.mapPhysicalRegion 0 badMapping,
        Event.readMapping badMapping]) := by
  decide

/-- Claim C8 (confirmed): in every `parse_acpi` run, no mapping is
dereferenced after it has been passed to `unmap_physical_region`: every
read of a mapping's contents precedes the release of that mapping. -/
theorem C8_no_read_after_unmap (h : HandlerModel) (addr : Nat) :
    noReadAfterUnmap (parse_acpi h addr).2 = true := by
  unfold parse_acpi
  cases (h.mapRsdp addr).content.validate <;> rfl

/-- Claim C9 (confirmed): `parse_acpi` calls `map_physical_region` exactly
once, with the `rsdp_address` argument, and its handler-call trace is
`[map(rsdp_address)]` when validation fails and `[map(rsdp_address),
unmap(that same mapping)]` when it succeeds — no other handler operation
ever occurs. -/
theorem C9_handler_call_trace (h : HandlerModel) (addr : Nat) :
    handlerCalls (parse_acpi h addr).2 =
      match (h.mapRsdp addr).content.validate with
      | Except.error _ => [Event.mapPhysicalRegion addr (h.mapRsdp addr)]
      | Except.ok _ =>
          [Event.mapPhysicalRegion addr (h.mapRsdp addr),
           Event.unmapPhysicalRegion (h.mapRsdp addr)] := by
  unfold parse_acpi
  cases (h.mapRsdp addr).content.validate <;> rfl

/-- Claim C10 (confirmed): `parse_acpi` is deterministic — two calls with
the same `rsdp_address` whose handlers return equal `PhysicalMapping`
values (equal mapped contents) make identical event traces and return
equal results. -/
theorem C10_deterministic (h1 h2 : HandlerModel) (addr : Nat)
    (hm : h1.mapRsdp addr = h2.mapRsdp addr) :
    parse_acpi h1 addr = parse_acpi h2 addr := by
  unfold parse_acpi
  rw [hm]

/-- Witness for C10: two handlers that agree at address 0 but differ at
other addresses produce identical runs. -/
theorem C10_witness :
    goodHandler.mapRsdp 0 = altHandler.mapRsdp 0 ∧
    parse_acpi goodHandler 0 = parse_acpi altHandler 0 :=
  ⟨rfl, C10_deterministic goodHandler altHandler 0 rfl⟩

end Acpi
